import Mathlib

/-!
Verification of `xsetns` from `src/cmd/starter/c/setns.c` of sylabs/singularity.

The C source is a single function with one compile-time branch:

  #ifdef __NR_setns
  int xsetns(int fd, int nstype) {
      return syscall(__NR_setns, fd, nstype);
  }
  #else
  int xsetns(int fd, int nstype) {
      (void)fd;
      (void)nstype;
      singularity_message(WARNING, "setns() not supported at compile time by kernel at time of building\n");
      errno = ENOSYS;
      return -1;
  }
  #endif

We embed the process-visible state (the calling thread's kernel namespace
membership, the file-descriptor table, the errno slot, the diagnostic log),
an event trace recording which syscalls and diagnostics an invocation emits,
and the two build variants of `xsetns` as state transformers.  The kernel's
`setns` behaviour and the logging collaborator `singularity_message` are
external to the source file; the kernel is kept abstract (a parameter) where
a claim only concerns forwarding, and instantiated with a model written from
the spec's interface description where a claim concerns kernel-side outcomes.
-/

/-- A file descriptor, as the C `int fd`. -/
abbrev Fd := Int

/-- The kinds of Linux namespaces a descriptor can reference. -/
inductive NsKind
  | mnt
  | uts
  | ipc
  | net
  | pid
  | user
  | cgroup
  deriving DecidableEq

/-- The `CLONE_NEW*` flag value selecting each namespace kind, as in the
kernel headers (`nstype` argument of `setns`). -/
def nsFlag : NsKind → Int
  | NsKind.mnt => 0x00020000
  | NsKind.cgroup => 0x02000000
  | NsKind.uts => 0x04000000
  | NsKind.ipc => 0x08000000
  | NsKind.user => 0x10000000
  | NsKind.pid => 0x20000000
  | NsKind.net => 0x40000000

/-- Status of a slot in the file-descriptor table: closed, open on something
other than a namespace, or open on the namespace object `nsid` of kind
`kind`. -/
inductive FdStatus
  | closed
  | openOther
  | openNs (kind : NsKind) (nsid : Nat)
  deriving DecidableEq

/-- Kernel-side state visible to this operation: the calling thread's
namespace membership (one namespace identity per kind), the fd table, and
whether the caller holds sufficient privilege for a namespace join. -/
structure KernelState where
  membership : NsKind → Nat
  fdTable : Fd → FdStatus
  privileged : Bool

/-- errno value `EPERM` (operation not permitted). -/
def EPERM : Int := 1

/-- errno value `EBADF` (bad file descriptor). -/
def EBADF : Int := 9

/-- errno value `EINVAL` (invalid argument). -/
def EINVAL : Int := 22

/-- errno value `ENOSYS` (function not implemented / operation not
supported), the sentinel stored by the unsupported branch. -/
def ENOSYS : Int := 38

/-- Process-visible state threaded through an invocation: the kernel state,
the process errno slot, and the diagnostic log written by the logging
collaborator. -/
structure ProcState where
  kernel : KernelState
  errno : Int
  log : List String

/-- One observable event of an invocation: a `setns` syscall with its two
arguments, any other syscall (never emitted by this code), or a warning
diagnostic. -/
inductive Event
  | sysSetns (fd : Fd) (nstype : Int)
  | sysOther (name : String)
  | warn (msg : String)
  deriving DecidableEq

/-- Whether an event is a warning diagnostic. -/
def Event.isWarn : Event → Bool
  | Event.warn _ => true
  | _ => false

/-- A kernel: given the kernel state and the two `setns` arguments, either a
new kernel state (success) or an error code (failure).  Left abstract so
that forwarding claims hold for every kernel. -/
def Kernel := KernelState → Fd → Int → Except Int KernelState

/-- Modelled from the spec: the kernel's `setns` semantics (the kernel is an
external collaborator, not part of `setns.c`).  A closed descriptor is
rejected with `EBADF`; a non-namespace descriptor, or a nonzero `nstype`
that does not match the descriptor's kind, with `EINVAL`; an unprivileged
caller with `EPERM`; otherwise the calling thread's membership for the
descriptor's kind becomes the referenced namespace, and nothing else
changes. -/
def kernelSetnsModel : Kernel := fun k fd nstype =>
  match k.fdTable fd with
  | FdStatus.closed => Except.error EBADF
  | FdStatus.openOther => Except.error EINVAL
  | FdStatus.openNs kind nsid =>
    if nstype = 0 ∨ nstype = nsFlag kind then
      if k.privileged then
        Except.ok { k with membership := Function.update k.membership kind nsid }
      else
        Except.error EPERM
    else
      Except.error EINVAL

/-- The libc `syscall(__NR_setns, fd, nstype)` call under kernel `k`:
issues the syscall (recorded in the trace) and returns the kernel's result
through the errno convention — `0` on success with the kernel state updated,
`-1` on failure with errno set to the kernel's code. -/
def syscall_setns (k : Kernel) (s : ProcState) (fd : Fd) (nstype : Int) :
    Int × ProcState × List Event :=
  match k s.kernel fd nstype with
  | Except.ok ks => (0, { s with kernel := ks }, [Event.sysSetns fd nstype])
  | Except.error e => (-1, { s with errno := e }, [Event.sysSetns fd nstype])

/-- The exact warning text of the unsupported branch of `setns.c`. -/
def setnsWarning : String :=
  "setns() not supported at compile time by kernel at time of building\n"

/-- Modelled from the spec: `singularity_message(WARNING, msg)` — the
external logging collaborator (its code is not part of `setns.c`) — appends
the message to the diagnostic log and emits a warning event.  Whether the
collaborator itself reads or rewrites the process errno slot during the call
is left abstract as `eff`. -/
def singularity_message (eff : Int → Int) (s : ProcState) (msg : String) :
    ProcState × List Event :=
  ({ s with log := s.log ++ [msg], errno := eff s.errno }, [Event.warn msg])

/-- `xsetns` on a build where `__NR_setns` is defined:
`return syscall(__NR_setns, fd, nstype);`. -/
def xsetns_supported (k : Kernel) (s : ProcState) (fd : Fd) (nstype : Int) :
    Int × ProcState × List Event :=
  syscall_setns k s fd nstype

/-- `xsetns` on a build where `__NR_setns` is not defined: the arguments are
discarded (`(void)fd; (void)nstype;`), one warning is emitted through
`singularity_message`, then `errno = ENOSYS;` and `return -1;`. -/
def xsetns_unsupported (eff : Int → Int) (s : ProcState) (fd : Fd) (nstype : Int) :
    Int × ProcState × List Event :=
  let r := singularity_message eff s setnsWarning
  let s2 := { r.1 with errno := ENOSYS }
  (-1, s2, r.2)

/-- The compile-time availability branch: decided once at build time. -/
inductive Build
  | supported
  | unsupported
  deriving DecidableEq

/-- `xsetns` as a function of the build variant. -/
def xsetns (b : Build) (k : Kernel) (eff : Int → Int) (s : ProcState) (fd : Fd)
    (nstype : Int) : Int × ProcState × List Event :=
  match b with
  | Build.supported => xsetns_supported k s fd nstype
  | Build.unsupported => xsetns_unsupported eff s fd nstype

/-- A concrete kernel state for evaluating the development on closed terms:
fd 3 is a UTS-namespace descriptor for namespace 42, fd 4 is open but not a
namespace, everything else is closed; the caller is privileged; every
membership starts at namespace 1. -/
def testKernel : KernelState where
  membership := fun _ => 1
  fdTable := fun fd =>
    if fd = 3 then FdStatus.openNs NsKind.uts 42
    else if fd = 4 then FdStatus.openOther
    else FdStatus.closed
  privileged := true

/-- A concrete process state built on `testKernel` with a clean errno slot
and an empty diagnostic log. -/
def testState : ProcState where
  kernel := testKernel
  errno := 0
  log := []

/-- C1: on a supported build, for every kernel, state, descriptor and type
flag, `xsetns` issues exactly one `setns` syscall forwarding `fd` and
`nstype` unmodified, and returns exactly what the kernel reports: return
value `0` with the kernel state updated and errno untouched on success, or
return value `-1` with errno set to the kernel's failure code — no retry,
no reinterpretation of the code, and nothing else touched. -/
theorem xsetns_supported_forwards_kernel_result (k : Kernel) (s : ProcState)
    (fd nstype : Int) :
    (xsetns_supported k s fd nstype).2.2 = [Event.sysSetns fd nstype] ∧
    (∀ ks, k s.kernel fd nstype = Except.ok ks →
      (xsetns_supported k s fd nstype).1 = 0 ∧
      (xsetns_supported k s fd nstype).2.1 = { s with kernel := ks }) ∧
    (∀ e, k s.kernel fd nstype = Except.error e →
      (xsetns_supported k s fd nstype).1 = -1 ∧
      (xsetns_supported k s fd nstype).2.1 = { s with errno := e }) := by
  refine ⟨?_, ?_, ?_⟩
  · cases h : k s.kernel fd nstype <;> simp [xsetns_supported, syscall_setns, h]
  · intro ks h
    simp [xsetns_supported, syscall_setns, h]
  · intro e h
    simp [xsetns_supported, syscall_setns, h]

/-- Witness for C1 at a concrete input: the kernel model on `testState` with
the valid UTS descriptor 3 and `nstype = 0` reports success, and `xsetns`
surfaces it as return value `0` with a single forwarded syscall event. -/
theorem xsetns_supported_forwards_kernel_result_witness :
    (xsetns_supported kernelSetnsModel testState 3 0).2.2 = [Event.sysSetns 3 0] ∧
    (xsetns_supported kernelSetnsModel testState 3 0).1 = 0 := by
  have h := xsetns_supported_forwards_kernel_result kernelSetnsModel testState 3 0
  refine ⟨h.1, (h.2.1 { testKernel with
      membership := Function.update testKernel.membership NsKind.uts 42 } ?_).1⟩
  show kernelSetnsModel testState.kernel 3 0 = _
  simp [kernelSetnsModel, testState, testKernel]

/-- C2: on an unsupported build, for every logging-collaborator errno
effect, state, descriptor and type flag, `xsetns` performs no syscall,
emits exactly one warning diagnostic (the fixed message, appended to the
log), sets errno to the sentinel `ENOSYS`, and returns `-1`. -/
theorem xsetns_unsupported_warns_and_sets_enosys (eff : Int → Int)
    (s : ProcState) (fd nstype : Int) :
    (xsetns_unsupported eff s fd nstype).1 = -1 ∧
    (xsetns_unsupported eff s fd nstype).2.1.errno = ENOSYS ∧
    (xsetns_unsupported eff s fd nstype).2.1.log = s.log ++ [setnsWarning] ∧
    (xsetns_unsupported eff s fd nstype).2.2 = [Event.warn setnsWarning] := by
  simp [xsetns_unsupported, singularity_message]

/-- C4: on an unsupported build, the whole observable outcome — return
value, post-state and trace — is one and the same for every pair of inputs:
the arguments are never inspected. -/
theorem xsetns_unsupported_input_independent (eff : Int → Int) (s : ProcState)
    (fd1 nstype1 fd2 nstype2 : Int) :
    xsetns_unsupported eff s fd1 nstype1 = xsetns_unsupported eff s fd2 nstype2 := rfl

/-- C5: on an unsupported build, the kernel state (namespace membership,
fd table, privilege) is untouched for every input; apart from the errno
slot, the only side effect is the one warning diagnostic appended to the
log. -/
theorem xsetns_unsupported_frame (eff : Int → Int) (s : ProcState)
    (fd nstype : Int) :
    (xsetns_unsupported eff s fd nstype).2.1.kernel = s.kernel ∧
    (xsetns_unsupported eff s fd nstype).2.1.log = s.log ++ [setnsWarning] ∧
    (xsetns_unsupported eff s fd nstype).2.2 = [Event.warn setnsWarning] := by
  simp [xsetns_unsupported, singularity_message]

/-- C9: on an unsupported build, `errno = ENOSYS` is assigned after the
warning has been emitted, so the errno value seen by the caller on return
is exactly `ENOSYS` no matter how the logging collaborator rewrites the
errno slot during the call. -/
theorem xsetns_unsupported_errno_enosys_after_warning (eff : Int → Int)
    (s : ProcState) (fd nstype : Int) :
    (xsetns_unsupported eff s fd nstype).2.1.errno = ENOSYS := rfl

/-- C10: on a supported build, for every kernel, state, descriptor, type
flag and outcome, `xsetns` emits no warning diagnostic and leaves the log
unchanged: the warning channel is used only by the unsupported branch. -/
theorem xsetns_supported_no_diagnostics (k : Kernel) (s : ProcState)
    (fd nstype : Int) :
    ((xsetns_supported k s fd nstype).2.2).filter Event.isWarn = [] ∧
    (xsetns_supported k s fd nstype).2.1.log = s.log := by
  cases h : k s.kernel fd nstype <;>
    simp [xsetns_supported, syscall_setns, h, Event.isWarn, List.filter]

/-- C3: on a supported build, for every open namespace descriptor with a
matching type flag (the descriptor's kind flag, or 0 for "any"), when the
caller is privileged, `xsetns` under the kernel model succeeds and
afterwards the calling thread's membership for that kind is the namespace
referenced by the descriptor. -/
theorem xsetns_supported_valid_join_succeeds (s : ProcState) (fd : Fd)
    (kind : NsKind) (nsid : Nat) (nstype : Int)
    (hfd : s.kernel.fdTable fd = FdStatus.openNs kind nsid)
    (hty : nstype = 0 ∨ nstype = nsFlag kind)
    (hpriv : s.kernel.privileged = true) :
    (xsetns_supported kernelSetnsModel s fd nstype).1 = 0 ∧
    (xsetns_supported kernelSetnsModel s fd nstype).2.1.kernel.membership kind
      = nsid := by
  simp [xsetns_supported, syscall_setns, kernelSetnsModel, hfd, hty, hpriv,
    Function.update_same]

/-- Witness for C3: joining the UTS descriptor 3 of `testState` with the
UTS flag succeeds and the thread's UTS membership becomes namespace 42. -/
theorem xsetns_supported_valid_join_succeeds_witness :
    (xsetns_supported kernelSetnsModel testState 3 (nsFlag NsKind.uts)).1 = 0 ∧
    (xsetns_supported kernelSetnsModel testState 3
       (nsFlag NsKind.uts)).2.1.kernel.membership NsKind.uts = 42 :=
  xsetns_supported_valid_join_succeeds testState 3 NsKind.uts 42
    (nsFlag NsKind.uts) (by simp [testState, testKernel]) (Or.inr rfl) rfl

/-- C6: on a supported build, for every invalid descriptor — closed, or open
on something that is not a namespace — `xsetns` under the kernel model
returns `-1` with the kernel's own code in errno (`EBADF` or `EINVAL`,
passed through), and the whole kernel state, the thread's namespace
membership included, is unchanged. -/
theorem xsetns_supported_invalid_fd_rejected (s : ProcState) (fd : Fd)
    (nstype : Int)
    (hfd : s.kernel.fdTable fd = FdStatus.closed ∨
           s.kernel.fdTable fd = FdStatus.openOther) :
    (xsetns_supported kernelSetnsModel s fd nstype).1 = -1 ∧
    (xsetns_supported kernelSetnsModel s fd nstype).2.1.kernel = s.kernel ∧
    ((xsetns_supported kernelSetnsModel s fd nstype).2.1.errno = EBADF ∨
     (xsetns_supported kernelSetnsModel s fd nstype).2.1.errno = EINVAL) := by
  rcases hfd with h | h <;>
    simp [xsetns_supported, syscall_setns, kernelSetnsModel, h]

/-- Witness for C6: the closed descriptor 5 of `testState` is rejected with
the kernel's bad-descriptor code and the kernel state is untouched. -/
theorem xsetns_supported_invalid_fd_rejected_witness :
    (xsetns_supported kernelSetnsModel testState 5 (nsFlag NsKind.uts)).1 = -1 ∧
    (xsetns_supported kernelSetnsModel testState 5
       (nsFlag NsKind.uts)).2.1.kernel = testState.kernel ∧
    ((xsetns_supported kernelSetnsModel testState 5
        (nsFlag NsKind.uts)).2.1.errno = EBADF ∨
     (xsetns_supported kernelSetnsModel testState 5
        (nsFlag NsKind.uts)).2.1.errno = EINVAL) :=
  xsetns_supported_invalid_fd_rejected testState 5 (nsFlag NsKind.uts)
    (Or.inl (by simp [testState, testKernel]))

/-- Exact result of a successful join under the kernel model: return 0, the
membership for the descriptor's kind updated to the referenced namespace,
everything else in the state unchanged, and one forwarded syscall event. -/
theorem xsetns_supported_valid_join_eq (s : ProcState) (fd : Fd)
    (kind : NsKind) (nsid : Nat) (nstype : Int)
    (hfd : s.kernel.fdTable fd = FdStatus.openNs kind nsid)
    (hty : nstype = 0 ∨ nstype = nsFlag kind)
    (hpriv : s.kernel.privileged = true) :
    xsetns_supported kernelSetnsModel s fd nstype =
      (0,
       { s with kernel := { s.kernel with
           membership := Function.update s.kernel.membership kind nsid } },
       [Event.sysSetns fd nstype]) := by
  simp [xsetns_supported, syscall_setns, kernelSetnsModel, hfd, hty, hpriv]

/-- C7: on a supported build, joining the same valid descriptor with the
same matching type flag twice in immediate succession succeeds both times,
and the state after the second call is exactly the state after the first:
joining a namespace the thread is already a member of is a no-op success. -/
theorem xsetns_supported_idempotent (s : ProcState) (fd : Fd) (kind : NsKind)
    (nsid : Nat) (nstype : Int)
    (hfd : s.kernel.fdTable fd = FdStatus.openNs kind nsid)
    (hty : nstype = 0 ∨ nstype = nsFlag kind)
    (hpriv : s.kernel.privileged = true) :
    (xsetns_supported kernelSetnsModel s fd nstype).1 = 0 ∧
    (xsetns_supported kernelSetnsModel
       (xsetns_supported kernelSetnsModel s fd nstype).2.1 fd nstype).1 = 0 ∧
    (xsetns_supported kernelSetnsModel
       (xsetns_supported kernelSetnsModel s fd nstype).2.1 fd nstype).2.1 =
      (xsetns_supported kernelSetnsModel s fd nstype).2.1 := by
  have h1 := xsetns_supported_valid_join_eq s fd kind nsid nstype hfd hty hpriv
  have hfd1 : (xsetns_supported kernelSetnsModel s fd nstype).2.1.kernel.fdTable
      fd = FdStatus.openNs kind nsid := by rw [h1]; exact hfd
  have hpriv1 : (xsetns_supported kernelSetnsModel
      s fd nstype).2.1.kernel.privileged = true := by rw [h1]; exact hpriv
  have h2 := xsetns_supported_valid_join_eq
    (xsetns_supported kernelSetnsModel s fd nstype).2.1 fd kind nsid nstype
    hfd1 hty hpriv1
  refine ⟨by rw [h1], by rw [h2], ?_⟩
  rw [h2]
  rw [h1]
  simp [Function.update_idem]

/-- Witness for C7 at a concrete input: joining descriptor 3 of `testState`
twice with the UTS flag succeeds both times and the second call leaves the
state of the first call unchanged. -/
theorem xsetns_supported_idempotent_witness :
    (xsetns_supported kernelSetnsModel testState 3 (nsFlag NsKind.uts)).1 = 0 ∧
    (xsetns_supported kernelSetnsModel
       (xsetns_supported kernelSetnsModel testState 3
          (nsFlag NsKind.uts)).2.1 3 (nsFlag NsKind.uts)).1 = 0 ∧
    (xsetns_supported kernelSetnsModel
       (xsetns_supported kernelSetnsModel testState 3
          (nsFlag NsKind.uts)).2.1 3 (nsFlag NsKind.uts)).2.1 =
      (xsetns_supported kernelSetnsModel testState 3 (nsFlag NsKind.uts)).2.1 :=
  xsetns_supported_idempotent testState 3 NsKind.uts 42 (nsFlag NsKind.uts)
    (by simp [testState, testKernel]) (Or.inr rfl) rfl

/-- The kernel model never touches the fd table: a successful `setns` only
rewrites the membership. -/
theorem kernelSetnsModel_preserves_fdTable (k : KernelState) (fd : Fd)
    (nstype : Int) (ks : KernelState)
    (h : kernelSetnsModel k fd nstype = Except.ok ks) :
    ks.fdTable = k.fdTable := by
  unfold kernelSetnsModel at h
  split at h
  · simp at h
  · simp at h
  · split at h
    · split at h
      · cases h
        rfl
      · simp at h
    · simp at h

/-- C8: on both build branches, for every input and every outcome, `xsetns`
leaves the file-descriptor table — the open/closed status of every
descriptor, the argument included — exactly as it was, and its trace is a
single event that is never a descriptor operation: one forwarded `setns`
syscall on a supported build, one warning on an unsupported build.  The
descriptor is neither duplicated, retained nor closed, and no cleanup
happens on failure. -/
theorem xsetns_preserves_fd_table (b : Build) (eff : Int → Int)
    (s : ProcState) (fd : Fd) (nstype : Int) :
    (xsetns b kernelSetnsModel eff s fd nstype).2.1.kernel.fdTable
      = s.kernel.fdTable ∧
    ((xsetns b kernelSetnsModel eff s fd nstype).2.2
        = [Event.sysSetns fd nstype] ∨
     (xsetns b kernelSetnsModel eff s fd nstype).2.2
        = [Event.warn setnsWarning]) := by
  cases b
  · constructor
    · show (xsetns_supported kernelSetnsModel s fd nstype).2.1.kernel.fdTable
        = s.kernel.fdTable
      unfold xsetns_supported syscall_setns
      cases h : kernelSetnsModel s.kernel fd nstype with
      | ok ks =>
        simpa using kernelSetnsModel_preserves_fdTable s.kernel fd nstype ks h
      | error e => simp
    · refine Or.inl ?_
      show (xsetns_supported kernelSetnsModel s fd nstype).2.2
        = [Event.sysSetns fd nstype]
      cases h : kernelSetnsModel s.kernel fd nstype <;>
        simp [xsetns_supported, syscall_setns, h]
  · exact ⟨rfl, Or.inr rfl⟩
